import Mathlib

/-!
# Verification of `probablyNot.js`

Shallow embedding of the logic-bearing core of `src/probablyNot.js`:
the result selector with its comma-split-and-trim post-processing
(`analyzeImage`, lines 171-188), the guarded capture entry points
(`takePicture`, `uploadPicture`), the `analyzeImage` pipeline itself,
and the ML5 library polling gate installed by the `DOMContentLoaded`
handler (lines 7-33).

The DOM is modelled as a record of the fields the script mutates; the
external classifier is an oracle parameter (`Except` outcome of the
`classifier.classify` call); timers are modelled by the sequence of
their firing instants (interval ticks at 100 ms, ..., 10000 ms followed
by the 10 s timeout, matching registration order for simultaneous
expiry).  JS string `split(",")[0]` and `trim()` are modelled on the
character list of the string, with whitespace read as
`Char.isWhitespace`.
-/

namespace ProbablyNot

/-- One entry of the ranked classifier output: `(label, confidence)`.
Confidence (a JS number) is modelled as a rational; the script never
inspects it. -/
structure ClassEntry where
  label : String
  confidence : ℚ
deriving DecidableEq

/-- JS `s.split(",")[0]`: the text of `s` up to (excluding) the first
comma, or all of `s` when it has no comma. -/
def splitCommaFirst (s : String) : String :=
  ⟨s.data.takeWhile (fun c => c ≠ ',')⟩

/-- JS `s.startsWith(pre)`: whether `pre` is an initial segment of `s`,
modelled on the character list of the string. -/
def jsStartsWith (s pre : String) : Bool :=
  pre.data.isPrefixOf s.data

/-- Remove the trailing elements of a list that satisfy `p`
(the right-hand half of JS `trim()`). -/
def dropTrailing (p : α → Bool) : List α → List α
  | [] => []
  | a :: as =>
    if (dropTrailing p as).isEmpty && p a then [] else a :: dropTrailing p as

/-- JS `s.trim()`: remove leading and trailing whitespace
(whitespace modelled by `Char.isWhitespace`). -/
def jsTrim (s : String) : String :=
  ⟨dropTrailing Char.isWhitespace (s.data.dropWhile Char.isWhitespace)⟩

/-- Line 186: `thirdMostLikely.split(",")[0].trim()`. -/
def cleanLabel (s : String) : String :=
  jsTrim (splitCommaFirst s)

/-- Lines 171-183 of `analyzeImage`: pick `results[2].label` when at
least three results, else `results[results.length - 1].label` when
nonempty, else the sentinel `"mysterious object"`.  (The JS null-guard
`results && ...` is absorbed by the caller only reaching this code with
an actual result list.) -/
def selectRawLabel (results : List ClassEntry) : String :=
  if _h3 : 3 ≤ results.length then
    (results.get ⟨2, by omega⟩).label
  else if hpos : 0 < results.length then
    (results.get ⟨results.length - 1, by omega⟩).label
  else
    "mysterious object"

/-- The derived display label: selection followed by line 186's
comma-split-and-trim. -/
def displayLabel (results : List ClassEntry) : String :=
  cleanLabel (selectRawLabel results)

/-- The DOM fields `probablyNot.js` reads or mutates. -/
structure DomState where
  errorVisible : Bool
  errorText : String
  loadingVisible : Bool
  resultVisible : Bool
  resultImageUrl : String
  resultText : String
  cameraVisible : Bool
  controlsVisible : Bool
  fileInputValue : String
deriving DecidableEq

/-- The script's global mutable state (`isModelLoaded`, the `classifier`
binding, `video.srcObject`) together with the DOM. -/
structure AppState where
  isModelLoaded : Bool
  classifierSet : Bool
  hasVideoStream : Bool
  dom : DomState
deriving DecidableEq

/-- `showError(message)` (lines 299-303). -/
def showError (st : AppState) (msg : String) : AppState :=
  { st with dom := { st.dom with errorVisible := true, errorText := msg } }

/-- `hideError()` (lines 308-310). -/
def hideError (st : AppState) : AppState :=
  { st with dom := { st.dom with errorVisible := false } }

/-- `showLoading()` (lines 285-287). -/
def showLoading (st : AppState) : AppState :=
  { st with dom := { st.dom with loadingVisible := true } }

/-- `hideLoading()` (lines 292-294). -/
def hideLoading (st : AppState) : AppState :=
  { st with dom := { st.dom with loadingVisible := false } }

/-- `hideControlButtons()` (lines 250-255). -/
def hideControlButtons (st : AppState) : AppState :=
  { st with dom := { st.dom with controlsVisible := false } }

/-- `showControlButtons()` (lines 239-245). -/
def showControlButtons (st : AppState) : AppState :=
  { st with dom := { st.dom with controlsVisible := true } }

/-- `showResult(imageUrl, prediction)` (lines 200-214). -/
def showResult (st : AppState) (imageUrl prediction : String) : AppState :=
  let st := { st with dom := { st.dom with
    resultImageUrl := imageUrl,
    resultText := "Probably Not a " ++ prediction,
    cameraVisible := false } }
  let st := hideControlButtons st
  { st with dom := { st.dom with resultVisible := true } }

/-- `analyzeImage(img, imageUrl)` (lines 152-195).  The external
`classifier.classify` call is an oracle: `classifyOutcome` is its
settled result.  Returns the new state paired with whether the classify
call was actually issued.  The `try`/`catch`/`finally` structure is
mirrored: the guard throw of line 162 is caught by the same handler as
a classify rejection, and `hideLoading` runs on every path. -/
def analyzeImage (st : AppState) (imageUrl : String)
    (classifyOutcome : Except String (List ClassEntry)) : AppState × Bool :=
  let st := showLoading (hideError st)
  if !st.isModelLoaded || !st.classifierSet then
    (hideLoading (showError st
      ("Failed to analyze image: " ++ "Model not loaded yet" ++ ". Please try again.")), false)
  else
    match classifyOutcome with
    | .ok results =>
        (hideLoading (showResult st imageUrl (displayLabel results)), true)
    | .error msg =>
        (hideLoading (showError st
          ("Failed to analyze image: " ++ msg ++ ". Please try again.")), true)

/-- `takePicture()` (lines 97-121).  `dataUrl` stands for the
environment-produced `canvas.toDataURL(...)`; the asynchronous
`img.onload -> analyzeImage` continuation is inlined. -/
def takePicture (st : AppState) (dataUrl : String)
    (classifyOutcome : Except String (List ClassEntry)) : AppState × Bool :=
  if !st.hasVideoStream then
    (showError st "Camera not available. Please check camera permissions.", false)
  else if !st.isModelLoaded then
    (showError st "AI model is still loading. Please wait a moment and try again.", false)
  else
    analyzeImage st dataUrl classifyOutcome

/-- A selected file as the upload event delivers it: a declared MIME
type string (`file.type`) and a name. -/
structure JsFile where
  name : String
  type : String
deriving DecidableEq

/-- `uploadPicture(event)` (lines 126-147).  `files` is
`event.target.files`; `objectUrl` stands for
`URL.createObjectURL(file)`; the `img.onload` continuation is
inlined. -/
def uploadPicture (st : AppState) (files : List JsFile) (objectUrl : String)
    (classifyOutcome : Except String (List ClassEntry)) : AppState × Bool :=
  match files.head? with
  | none => (st, false)
  | some file =>
    if !(jsStartsWith file.type "image/") then
      (showError st "Please select a valid image file.", false)
    else if !st.isModelLoaded then
      (showError st "AI model is still loading. Please wait a moment and try again.", false)
    else
      analyzeImage st objectUrl classifyOutcome

/-- State of the ML5 readiness gate set up by the `DOMContentLoaded`
handler (lines 7-33): whether the `setInterval` poll is still
registered, whether `loadModel()` was invoked, and the error message
shown by the timeout, if any. -/
structure GateState where
  pollingActive : Bool
  loadStarted : Bool
  errorMsg : Option String
deriving DecidableEq

/-- One firing of the 100 ms `setInterval` callback (lines 15-21):
when the poll is still registered and `ml5` has become defined, clear
the interval and start `loadModel()`. -/
def intervalTick (avail : Bool) (g : GateState) : GateState :=
  if g.pollingActive && avail then
    { g with pollingActive := false, loadStarted := true }
  else g

/-- The 10 s `setTimeout` callback (lines 24-31): if `ml5` is still
undefined, clear the interval and show the failure banner. -/
def timeoutFire (avail : Bool) (g : GateState) : GateState :=
  if !avail then
    { g with
      pollingActive := false,
      errorMsg := some "Failed to load ML5.js library. Please check your internet connection and refresh the page." }
  else g

/-- The `DOMContentLoaded` handler's model-readiness path (lines 10-32).
`avail t` is whether `typeof ml5 !== "undefined"` holds at `t` ms after
the handler runs.  If `ml5` is present immediately, `loadModel()` runs
at once; otherwise the interval fires at 100, 200, ..., 10000 ms and
then the timeout fires (the interval was registered first, so at the
shared instant 10000 ms its callback runs before the timeout's). -/
def gatePolling : GateState :=
  { pollingActive := true, loadStarted := false, errorMsg := none }

def gateRun (avail : Nat → Bool) : GateState :=
  if avail 0 then
    { pollingActive := false, loadStarted := true, errorMsg := none }
  else
    timeoutFire (avail 10000)
      ((List.range 100).foldl (fun g k => intervalTick (avail ((k + 1) * 100)) g)
        gatePolling)

/-- `isModelLoaded` can only become true through `loadModel()`
(line 74): the gate must have started the load and the asynchronous
`ml5.imageClassifier` call (`loadOk`) must have succeeded. -/
def gateReady (g : GateState) (loadOk : Bool) : Bool :=
  g.loadStarted && loadOk

/-- A DOM in its as-served configuration (no banner, no result view). -/
def sampleDom : DomState :=
  { errorVisible := false, errorText := "", loadingVisible := false,
    resultVisible := false, resultImageUrl := "", resultText := "",
    cameraVisible := true, controlsVisible := true, fileInputValue := "" }

/-- A state in which the model finished loading (Ready). -/
def readySt : AppState :=
  { isModelLoaded := true, classifierSet := true, hasVideoStream := true,
    dom := sampleDom }

/-- A state in which the model has not finished loading. -/
def loadingSt : AppState :=
  { isModelLoaded := false, classifierSet := false, hasVideoStream := true,
    dom := sampleDom }

/-! ## Helper lemmas -/

theorem dropTrailing_sublist (p : α → Bool) (l : List α) :
    List.Sublist (dropTrailing p l) l := by
  induction l with
  | nil => exact List.Sublist.refl []
  | cons a as ih =>
    rw [dropTrailing]
    split
    · exact List.nil_sublist _
    · exact List.Sublist.cons₂ a ih

theorem dropTrailing_idem (p : α → Bool) (l : List α) :
    dropTrailing p (dropTrailing p l) = dropTrailing p l := by
  induction l with
  | nil => rfl
  | cons a as ih =>
    by_cases h : ((dropTrailing p as).isEmpty && p a) = true
    · rw [dropTrailing, if_pos h]
      rfl
    · rw [dropTrailing, if_neg h, dropTrailing, ih, if_neg h]

theorem head?_dropTrailing (p : α → Bool) (l : List α) (c : α)
    (h : (dropTrailing p l).head? = some c) : l.head? = some c := by
  cases l with
  | nil => simp [dropTrailing] at h
  | cons a as =>
    rw [dropTrailing] at h
    split at h
    · simp at h
    · simpa using h

theorem dropWhile_eq_self_of_head (p : α → Bool) (l : List α)
    (h : ∀ c, l.head? = some c → p c = false) : l.dropWhile p = l := by
  cases l with
  | nil => rfl
  | cons a as =>
    exact List.dropWhile_cons_of_neg (by simp [h a rfl])

theorem foldl_fixed (f : β → α → β) (b : β) (l : List α)
    (h : ∀ a ∈ l, ∀ x, f x a = x) : l.foldl f b = b := by
  induction l generalizing b with
  | nil => rfl
  | cons a as ih =>
    rw [List.foldl_cons, h a (List.mem_cons_self a as)]
    exact ih b fun a2 ha2 x => h a2 (List.mem_cons_of_mem _ ha2) x

theorem cleanLabel_no_comma (s : String) :
    ∀ c ∈ (cleanLabel s).data, c ≠ ',' := by
  intro c hc
  have h1 : c ∈ (splitCommaFirst s).data.dropWhile Char.isWhitespace :=
    (dropTrailing_sublist _ _).subset hc
  have h2 : c ∈ (splitCommaFirst s).data :=
    (List.dropWhile_sublist _).subset h1
  have h3 := List.mem_takeWhile_imp h2
  simpa using h3

theorem splitCommaFirst_eq_self (s : String) (h : ∀ c ∈ s.data, c ≠ ',') :
    splitCommaFirst s = s := by
  have hd : s.data.takeWhile (fun c => c ≠ ',') = s.data :=
    List.takeWhile_eq_self_iff.mpr (by intro x hx; simpa using h x hx)
  cases s with
  | mk data =>
    show (⟨List.takeWhile _ data⟩ : String) = ⟨data⟩
    rw [show List.takeWhile (fun c => (c ≠ ',' : Bool)) data = data from hd]

theorem jsTrim_idem (s : String) : jsTrim (jsTrim s) = jsTrim s := by
  show (⟨dropTrailing Char.isWhitespace
      ((jsTrim s).data.dropWhile Char.isWhitespace)⟩ : String) = jsTrim s
  have hdw : (jsTrim s).data.dropWhile Char.isWhitespace = (jsTrim s).data := by
    apply dropWhile_eq_self_of_head
    intro c hc
    have hm : (s.data.dropWhile Char.isWhitespace).head? = some c :=
      head?_dropTrailing _ _ _ hc
    have := List.head?_dropWhile_not Char.isWhitespace s.data
    rw [hm] at this
    simpa using this
  rw [hdw]
  show (⟨dropTrailing Char.isWhitespace
      (dropTrailing Char.isWhitespace (s.data.dropWhile Char.isWhitespace))⟩ : String)
    = jsTrim s
  rw [dropTrailing_idem]
  rfl

theorem selectRawLabel_cases (results : List ClassEntry) :
    selectRawLabel results = "mysterious object" ∨
      ∃ e ∈ results, selectRawLabel results = e.label := by
  unfold selectRawLabel
  split
  · exact Or.inr ⟨_, results.get_mem _ _, rfl⟩
  · split
    · exact Or.inr ⟨_, results.get_mem _ _, rfl⟩
    · exact Or.inl rfl

/-! ## Claim theorems -/

/-- C1: for every classification result list with at least 3 entries, the
result selector selects the label of the zero-based index-2 (third-ranked)
entry, before comma-stripping is applied. -/
theorem third_result_selected (results : List ClassEntry)
    (h : 3 ≤ results.length) :
    selectRawLabel results = (results.get ⟨2, by omega⟩).label := by
  unfold selectRawLabel
  rw [dif_pos h]

/-- Witness for C1 at the three-entry demo list. -/
theorem third_result_selected_witness :
    3 ≤ ([⟨"Labrador, dog", 9/10⟩, ⟨"sandwich", 1/20⟩,
        ⟨"golden retriever, dog", 3/100⟩] : List ClassEntry).length ∧
    selectRawLabel [⟨"Labrador, dog", 9/10⟩, ⟨"sandwich", 1/20⟩,
        ⟨"golden retriever, dog", 3/100⟩]
      = (([⟨"Labrador, dog", 9/10⟩, ⟨"sandwich", 1/20⟩,
        ⟨"golden retriever, dog", 3/100⟩] : List ClassEntry).get ⟨2, by decide⟩).label :=
  ⟨by decide, third_result_selected _ (by decide)⟩

/-- C2: for every classification result list with exactly 1 or 2 entries,
the result selector selects the label of the last entry. -/
theorem last_result_selected (results : List ClassEntry)
    (h : results.length = 1 ∨ results.length = 2) :
    results.getLast?.map ClassEntry.label = some (selectRawLabel results) := by
  rcases h with h | h
  · obtain ⟨a, rfl⟩ := List.length_eq_one.mp h
    rfl
  · obtain ⟨a, b, rfl⟩ := List.length_eq_two.mp h
    rfl

/-- Witness for C2 at a one-entry list. -/
theorem last_result_selected_witness :
    (([⟨"cat", 4/5⟩] : List ClassEntry).length = 1 ∨
      ([⟨"cat", 4/5⟩] : List ClassEntry).length = 2) ∧
    ([⟨"cat", 4/5⟩] : List ClassEntry).getLast?.map ClassEntry.label
      = some (selectRawLabel [⟨"cat", 4/5⟩]) :=
  ⟨by decide, last_result_selected _ (by decide)⟩

/-- C3: for an empty classification result list, the result selector
selects the sentinel label "mysterious object". -/
theorem empty_results_sentinel :
    selectRawLabel [] = "mysterious object" := rfl

/-- C4: the displayed label (the `resultText` written by `analyzeImage`
on a successful classification) is the selected label post-processed by
comma-split-and-trim; on the demo list the raw selection is
"golden retriever, dog" and the displayed label "golden retriever". -/
theorem display_comma_strip (st : AppState) (u : String)
    (results : List ClassEntry)
    (hm : st.isModelLoaded = true) (hc : st.classifierSet = true) :
    (analyzeImage st u (Except.ok results)).1.dom.resultText
        = "Probably Not a " ++ cleanLabel (selectRawLabel results) ∧
    selectRawLabel [⟨"Labrador, dog", 9/10⟩, ⟨"sandwich", 1/20⟩,
        ⟨"golden retriever, dog", 3/100⟩] = "golden retriever, dog" ∧
    displayLabel [⟨"Labrador, dog", 9/10⟩, ⟨"sandwich", 1/20⟩,
        ⟨"golden retriever, dog", 3/100⟩] = "golden retriever" := by
  refine ⟨?_, by decide, by decide⟩
  simp [analyzeImage, hm, hc, showLoading, hideError, hideLoading,
    showResult, hideControlButtons, displayLabel]

/-- Witness for C4 at the Ready state. -/
theorem display_comma_strip_witness :
    readySt.isModelLoaded = true ∧ readySt.classifierSet = true ∧
    (analyzeImage readySt "url" (Except.ok [])).1.dom.resultText
      = "Probably Not a " ++ cleanLabel (selectRawLabel []) :=
  ⟨rfl, rfl, (display_comma_strip readySt "url" [] rfl rfl).1⟩

/-- C5: the label post-processing of line 186 (split at first comma,
then trim) is idempotent. -/
theorem cleanLabel_idempotent (s : String) :
    cleanLabel (cleanLabel s) = cleanLabel s := by
  have h1 : splitCommaFirst (cleanLabel s) = cleanLabel s :=
    splitCommaFirst_eq_self _ (cleanLabel_no_comma s)
  show jsTrim (splitCommaFirst (cleanLabel s)) = cleanLabel s
  rw [h1]
  exact jsTrim_idem (splitCommaFirst s)

/-- C6 counterexample: a result list whose selected entry has an empty
label yields an empty DisplayLabel, so the claim as stated fails. -/
theorem displayLabel_empty_cex :
    displayLabel [⟨"", 1⟩] = "" := by decide

/-- C6 amended: for every classification result list each of whose
entries' labels are non-empty after comma-split-and-trim (in particular
for the empty list, where the sentinel placeholder is used), the derived
DisplayLabel is non-empty. -/
theorem displayLabel_nonempty (results : List ClassEntry)
    (h : ∀ e ∈ results, cleanLabel e.label ≠ "") :
    displayLabel results ≠ "" := by
  unfold displayLabel
  rcases selectRawLabel_cases results with hs | ⟨e, he, hs⟩
  · rw [hs]
    decide
  · rw [hs]
    exact h e he

/-- Witness for the amended C6 at a one-entry list. -/
theorem displayLabel_nonempty_witness :
    (∀ e ∈ ([⟨"cat", 4/5⟩] : List ClassEntry), cleanLabel e.label ≠ "") ∧
    displayLabel [⟨"cat", 4/5⟩] ≠ "" :=
  ⟨by decide, displayLabel_nonempty _ (by decide)⟩

/-- C7: the classify call is never issued while readiness is false.
`analyzeImage` issues it only when `isModelLoaded` and the classifier
binding are both set (its defensive guard), and with the model not
loaded both capture entry points issue no classify call and reject with
an error banner (`takePicture` always; `uploadPicture` whenever the
event carries a file). -/
theorem classifier_gated_on_readiness :
    (∀ st u r, (analyzeImage st u r).2 = true →
        st.isModelLoaded = true ∧ st.classifierSet = true) ∧
    (∀ st u r, st.isModelLoaded = false →
        (takePicture st u r).2 = false ∧
        (takePicture st u r).1.dom.errorVisible = true) ∧
    (∀ st fs u r, st.isModelLoaded = false →
        (uploadPicture st fs u r).2 = false) ∧
    (∀ st f fs u r, st.isModelLoaded = false →
        (uploadPicture st (f :: fs) u r).1.dom.errorVisible = true) := by
  refine ⟨?_, ?_, ?_, ?_⟩
  · intro st u r h
    cases hm : st.isModelLoaded with
    | true =>
      cases hc : st.classifierSet with
      | true => exact ⟨rfl, rfl⟩
      | false =>
        simp [analyzeImage, showLoading, hideError, hm, hc] at h
    | false =>
      simp [analyzeImage, showLoading, hideError, hm] at h
  · intro st u r h
    cases hv : st.hasVideoStream with
    | false => simp [takePicture, hv, showError]
    | true => simp [takePicture, hv, h, showError]
  · intro st fs u r h
    cases fs with
    | nil => rfl
    | cons f fs =>
      by_cases ht : jsStartsWith f.type "image/"
      · simp [uploadPicture, ht, h]
      · simp [uploadPicture, ht]
  · intro st f fs u r h
    by_cases ht : jsStartsWith f.type "image/"
    · simp [uploadPicture, ht, h, showError]
    · simp [uploadPicture, ht, showError]

/-- Witness for C7: with the model not loaded, `takePicture` issues no
classify call and shows an error. -/
theorem classifier_gated_witness :
    loadingSt.isModelLoaded = false ∧
    (takePicture loadingSt "u" (Except.ok [])).2 = false ∧
    (takePicture loadingSt "u" (Except.ok [])).1.dom.errorVisible = true :=
  ⟨rfl, (classifier_gated_on_readiness.2.1 loadingSt "u" (Except.ok []) rfl).1,
    (classifier_gated_on_readiness.2.1 loadingSt "u" (Except.ok []) rfl).2⟩

/-- C8: an uploaded file whose declared MIME type does not start with
"image/" is rejected: no classify call is issued and the new state is
the old one with only the error banner shown, so a previously reached
Ready state (model flags, controls, views) is preserved. -/
theorem upload_rejects_non_image (st : AppState) (f : JsFile)
    (fs : List JsFile) (u : String) (r : Except String (List ClassEntry))
    (h : jsStartsWith f.type "image/" = false) :
    uploadPicture st (f :: fs) u r
      = ({ st with dom := { st.dom with
            errorVisible := true,
            errorText := "Please select a valid image file." } }, false) := by
  simp [uploadPicture, h, showError]

/-- Witness for C8: a text file uploaded in the Ready state. -/
theorem upload_rejects_non_image_witness :
    jsStartsWith (JsFile.mk "notes.txt" "text/plain").type "image/" = false ∧
    uploadPicture readySt [⟨"notes.txt", "text/plain"⟩] "u" (Except.ok [])
      = ({ readySt with dom := { readySt.dom with
            errorVisible := true,
            errorText := "Please select a valid image file." } }, false) :=
  ⟨by decide, upload_rejects_non_image readySt ⟨"notes.txt", "text/plain"⟩ []
    "u" (Except.ok []) (by decide)⟩

/-- C9: if `ml5` never becomes available within the 10 s timeout, the
gate ends with polling cleared, the "Failed to load ML5.js library ..."
error shown, `loadModel()` never started, and readiness never true. -/
theorem library_never_available_terminal (avail : Nat → Bool)
    (h : ∀ t, t ≤ 10000 → avail t = false) :
    (gateRun avail).errorMsg
        = some "Failed to load ML5.js library. Please check your internet connection and refresh the page." ∧
    (gateRun avail).loadStarted = false ∧
    (gateRun avail).pollingActive = false ∧
    ∀ loadOk, gateReady (gateRun avail) loadOk = false := by
  have h0 : avail 0 = false := h 0 (by omega)
  have hfold : (List.range 100).foldl
      (fun g k => intervalTick (avail ((k + 1) * 100)) g) gatePolling
      = gatePolling := by
    apply foldl_fixed
    intro k hk g
    have hk100 : (k + 1) * 100 ≤ 10000 := by
      have hklt : k < 100 := List.mem_range.mp hk
      omega
    simp [intervalTick, h _ hk100]
  have hrun : gateRun avail =
      { pollingActive := false,
        loadStarted := false,
        errorMsg := some "Failed to load ML5.js library. Please check your internet connection and refresh the page." } := by
    rw [gateRun, if_neg (by simp [h0]), hfold, timeoutFire]
    simp [h 10000 (by omega), gatePolling]
  rw [hrun]
  exact ⟨rfl, rfl, rfl, fun _ => rfl⟩

/-- Witness for C9: the never-available environment. -/
theorem library_never_available_witness :
    (∀ t : Nat, t ≤ 10000 → (fun _ : Nat => false) t = false) ∧
    (gateRun fun _ => false).errorMsg
      = some "Failed to load ML5.js library. Please check your internet connection and refresh the page." :=
  ⟨fun _ _ => rfl,
    (library_never_available_terminal (fun _ => false) fun _ _ => rfl).1⟩

/-- C10: an upload event with an empty file list is a no-op: no error,
no classify call, no state change at all. -/
theorem upload_no_file_noop (st : AppState) (u : String)
    (r : Except String (List ClassEntry)) :
    uploadPicture st [] u r = (st, false) := rfl

end ProbablyNot
